import Mathlib

/-!
Verification development for the casatables FFI glue layer
(`src/casatables/src/glue.cc` / `glue.h`): a shallow embedding of the
boundary functions of the bridge, together with theorems settling the
specification claims about exception marshaling, the data-kind dispatch
switches, the shape axis-reversal bridge, and the string bridge.

Modelling conventions:
  * The wrapped storage engine (casacore) is an external collaborator,
    assumed correct; its typed column accessors (`ScalarColumn<T>`,
    `ArrayColumn<T>`) and `TableRecord` operations are modelled as
    a state (`Column`, `Rec`) with store/load operations that succeed
    exactly where the engine's documented API does, and raise modelled
    engine exceptions elsewhere.
  * C++ exceptions are modelled with `Except`; the catch-all boundary
    (`handle_exception` plus each function's `try`/`catch` frame) is
    modelled explicitly on byte-level `ExcInfo` buffers.
  * Machine values are carried as tagged payloads (`CellScalar`); the
    glue only copies them bit-for-bit through typed accessors, so
    floating-point payloads are represented by their bit patterns as
    naturals, never interpreted arithmetically.
  * Out-parameter arrays (`unsigned long dims[8]`) are modelled by the
    list of (index, value) stores the code performs, so out-of-bounds
    stores are visible as written indices `>= 8`.
-/

/-- The `GlueDataType` enumeration from glue.h (mirroring
`casacore::DataType`), including the `TpNumberOfTypes` terminator that
the switch in `data_type_get_element_size` handles. -/
inductive DataKind
  | TpBool
  | TpChar
  | TpUChar
  | TpShort
  | TpUShort
  | TpInt
  | TpUInt
  | TpFloat
  | TpDouble
  | TpComplex
  | TpDComplex
  | TpString
  | TpTable
  | TpArrayBool
  | TpArrayChar
  | TpArrayUChar
  | TpArrayShort
  | TpArrayUShort
  | TpArrayInt
  | TpArrayUInt
  | TpArrayFloat
  | TpArrayDouble
  | TpArrayComplex
  | TpArrayDComplex
  | TpArrayString
  | TpRecord
  | TpOther
  | TpQuantity
  | TpArrayQuantity
  | TpInt64
  | TpArrayInt64
  | TpNumberOfTypes
deriving DecidableEq

/-- `data_type_get_element_size` from glue.cc: the switch mapping each
data-kind tag to `sizeof` of its native element type (`casacore::Bool` =
1 byte, `Char`/`uChar` = 1, `Short`/`uShort` = 2, `Int`/`uInt`/`float` =
4, `double`/`Complex`/`Int64` = 8, `DComplex` = 16), or the sentinel -1
for the variable-size kinds. -/
def data_type_get_element_size : DataKind → Int
  | .TpBool => 1
  | .TpChar => 1
  | .TpUChar => 1
  | .TpShort => 2
  | .TpUShort => 2
  | .TpInt => 4
  | .TpUInt => 4
  | .TpFloat => 4
  | .TpDouble => 8
  | .TpComplex => 8
  | .TpDComplex => 16
  | .TpString => -1
  | .TpTable => -1
  | .TpArrayBool => 1
  | .TpArrayChar => 1
  | .TpArrayUChar => 1
  | .TpArrayShort => 2
  | .TpArrayUShort => 2
  | .TpArrayInt => 4
  | .TpArrayUInt => 4
  | .TpArrayFloat => 4
  | .TpArrayDouble => 8
  | .TpArrayComplex => 8
  | .TpArrayDComplex => 16
  | .TpArrayString => -1
  | .TpRecord => -1
  | .TpOther => -1
  | .TpQuantity => -1
  | .TpArrayQuantity => -1
  | .TpInt64 => 8
  | .TpArrayInt64 => 8
  | .TpNumberOfTypes => -1

/-- One scalar machine value crossing the boundary.  Integer payloads
are the mathematical values of the machine integers; floating-point and
complex payloads are raw bit patterns (the glue only ever copies them). -/
inductive CellScalar
  | sBool (b : Bool)
  | sChar (v : Int)
  | sUChar (v : Nat)
  | sShort (v : Int)
  | sUShort (v : Nat)
  | sInt (v : Int)
  | sUInt (v : Nat)
  | sFloat (bits : Nat)
  | sDouble (bits : Nat)
  | sComplex (re im : Nat)
  | sDComplex (re im : Nat)
  | sInt64 (v : Int)
  | sString (bytes : List Nat)
deriving DecidableEq

/-- The scalar data-kind tag of a stored scalar value. -/
def scalarTag : CellScalar → DataKind
  | .sBool _ => .TpBool
  | .sChar _ => .TpChar
  | .sUChar _ => .TpUChar
  | .sShort _ => .TpShort
  | .sUShort _ => .TpUShort
  | .sInt _ => .TpInt
  | .sUInt _ => .TpUInt
  | .sFloat _ => .TpFloat
  | .sDouble _ => .TpDouble
  | .sComplex _ _ => .TpComplex
  | .sDComplex _ _ => .TpDComplex
  | .sInt64 _ => .TpInt64
  | .sString _ => .TpString

/-- The `TpArrayX` tag of element kind `X` (`TpOther` for element kinds
that have no array variant). -/
def arrayTag : DataKind → DataKind
  | .TpBool => .TpArrayBool
  | .TpChar => .TpArrayChar
  | .TpUChar => .TpArrayUChar
  | .TpShort => .TpArrayShort
  | .TpUShort => .TpArrayUShort
  | .TpInt => .TpArrayInt
  | .TpUInt => .TpArrayUInt
  | .TpFloat => .TpArrayFloat
  | .TpDouble => .TpArrayDouble
  | .TpComplex => .TpArrayComplex
  | .TpDComplex => .TpArrayDComplex
  | .TpString => .TpArrayString
  | .TpInt64 => .TpArrayInt64
  | .TpQuantity => .TpArrayQuantity
  | _ => .TpOther

/-- A value stored in a table cell or record field.  Array shapes are
kept in casacore (native, fastest-varying-first) axis order.  Nested
records and table references are opaque at this layer (the glue never
looks inside them; it only hands out handles). -/
inductive CellValue
  | scalar (s : CellScalar)
  | array (elem : DataKind) (shape : List Nat) (elems : List CellScalar)
  | subrec (id : Nat)
  | tableRef (id : Nat)
deriving DecidableEq

/-- The data-kind tag reported for a stored value (`TableRecord::type`
or `ColumnDesc::trueDataType`). -/
def cellKind : CellValue → DataKind
  | .scalar s => scalarTag s
  | .array e _ _ => arrayTag e
  | .subrec _ => .TpRecord
  | .tableRef _ => .TpTable

/-- The native-order shape of a stored value; non-array values report
the degenerate shape `[1]` (as `casacore::RecordDesc::shape` does). -/
def cellShape : CellValue → List Nat
  | .array _ sh _ => sh
  | _ => [1]

/-- The host-to-native shape bridge: the loop
`for (i = 0; i < n_dims; i++) shape[i] = dims[n_dims - 1 - i];`
that every put-style entry point of glue.cc performs on a shape
received from the host (slowest-varying-first) before handing it to
casacore (fastest-varying-first). -/
def shapeToCasa (nDims : Nat) (dims : List Nat) : List Nat :=
  (List.range nDims).map (fun i => dims.getD (nDims - 1 - i) 0)

/-- The native-to-host direction of the shape bridge, as the assembled
contents of the caller's `dims` buffer after the loop
`for (i = 0; i < n_dim; i++) dims[n_dim - 1 - i] = shape[i];` of the
describe-style entry points. -/
def shapeToHost (shape : List Nat) : List Nat :=
  shapeToCasa shape.length shape

/-- The individual stores `dims[n_dim - 1 - i] := shape[i]` performed by
the describe-style dims loops, as (index, value) pairs in program
order.  An entry with first component `>= 8` is a store past the end of
the caller's `unsigned long dims[8]` buffer. -/
def dimsWrites (shape : List Nat) : List (Nat × Nat) :=
  (List.range shape.length).map (fun i => (shape.length - 1 - i, shape.getD i 0))

/-- `StringBridge` from glue.h: a borrowed (pointer, byte length) view.
`data` stands for the bytes reachable from the pointer. -/
structure StringBridge where
  data : List Nat
  n_bytes : Nat
deriving DecidableEq

/-- `bridge_string` from glue.cc: `casacore::String(input.data,
input.n_bytes)` copies exactly `n_bytes` bytes from the host view into
an owned native string. -/
def bridge_string (input : StringBridge) : List Nat :=
  input.data.take input.n_bytes

/-- `unbridge_string` from glue.cc: invokes the host callback
synchronously with a view of the native string's buffer and byte
length.  The result is the list of callback invocations in order (the
source performs exactly one). -/
def unbridge_string (input : List Nat) : List StringBridge :=
  [⟨input, input.length⟩]

/-- `unbridge_string_array` from glue.cc: one callback invocation per
element, in array traversal order. -/
def unbridge_string_array (elems : List CellScalar) : List StringBridge :=
  elems.map (fun e =>
    match e with
    | .sString s => ⟨s, s.length⟩
    | _ => ⟨[], 0⟩)

-- The exception-to-result boundary (glue.cc handle_exception and the
-- catch-all frame wrapped around every entry point)

/-- A native C++ exception as seen by the catch-all handler: either a
`std::exception` carrying a NUL-free `what()` message, or an exception
of any other type. -/
inductive CppExc
  | stdExc (what : List Nat)
  | unknownExc

/-- `ExcInfo` from glue.h: the fixed 512-byte message buffer. -/
structure ExcInfo where
  message : List Nat

/-- The bytes of the generic placeholder message `"unidentifiable C++
exception occurred"` used when the exception type carries no message. -/
def placeholderBytes : List Nat :=
  "unidentifiable C++ exception occurred".data.map Char.toNat

/-- `handle_exception` from glue.cc.  For a `std::exception` it performs
`strncpy(exc.message, e.what(), 511)` (copy up to the source NUL or 511
bytes, NUL-padding the remainder of those 511 bytes) followed by
`exc.message[511] = 0`.  For any other exception it performs
`strcpy(exc.message, "unidentifiable C++ exception occurred")`, which
overwrites the first 38 bytes and leaves the rest of the buffer as it
was. -/
def handle_exception (old : ExcInfo) (e : CppExc) : ExcInfo :=
  match e with
  | .stdExc m =>
      let copied := (m.takeWhile (fun b => b != 0)).take 511
      ⟨copied ++ List.replicate (512 - copied.length) 0⟩
  | .unknownExc =>
      ⟨placeholderBytes ++ [0] ++ old.message.drop (placeholderBytes.length + 1)⟩

/-- The catch-all frame of every allocating entry point of glue.cc:
`try { return new ...; } catch (...) { handle_exception(exc); return
NULL; }`.  The native computation either produces a handle or raises. -/
def runAllocCall {α : Type} (native : Except CppExc α) (exc : ExcInfo) :
    Option α × ExcInfo :=
  match native with
  | .ok a => (some a, exc)
  | .error e => (none, handle_exception exc e)

/-- The catch-all frame of every action-style entry point of glue.cc:
`try { ...; return 0; } catch (...) { handle_exception(exc); return 1; }`. -/
def runActionCall {α : Type} (native : Except CppExc α) (exc : ExcInfo) :
    Nat × ExcInfo :=
  match native with
  | .ok _ => (0, exc)
  | .error e => (1, handle_exception exc e)

/-- `tablerec_create` from glue.cc: allocate a fresh native
`TableRecord` behind the catch-all boundary frame (the native
constructor is the engine's; it either returns the new record or
raises, e.g. on allocation failure). -/
def tablerec_create (native : Except CppExc (List (String × CellValue)))
    (exc : ExcInfo) : Option (List (String × CellValue)) × ExcInfo :=
  runAllocCall native exc

-- Errors raised inside the try-blocks of the dispatch entry points.

/-- An error raised inside a glue entry point's try-block: either a
`std::runtime_error` (or engine exception) with its message, or the
model-level marker for a caller that violated the raw-buffer typing
contract the C code cannot check (reading `void *data` at the wrong
type, which in C would reinterpret memory). -/
inductive GlueErr
  | msg (s : String)
  | confusion
deriving DecidableEq

/-- A native `TableRecord`: an ordered name-to-value dictionary.
Field numbers are list positions. -/
abbrev Rec := List (String × CellValue)

/-- `TableRecord::fieldNumber`: the position of the named field, or the
negative not-found sentinel -1. -/
def fieldNumber (rec : Rec) (name : String) : Int :=
  match rec.findIdx? (fun f => f.1 == name) with
  | some i => (i : Int)
  | none => -1

/-- The value of field number `i` of a record (meaningful when
`0 <= i < rec.length`). -/
def recField (rec : Rec) (i : Nat) : CellValue :=
  (rec.getD i ("", .scalar (.sBool false))).2

/-- `tablerec_get_field_info` from glue.cc: look the field up by name
(raising "unrecognized column name" on the not-found sentinel), report
its data kind, and for non-scalar fields report the rank and run the
axis-reversing dims loop.  Faithful to the source, there is NO check
that the rank is at most 8 before the loop stores into the caller's
8-entry dims buffer; the stores are returned as `dimsWrites`. -/
def tablerec_get_field_info (rec : Rec) (name : String) :
    Except GlueErr (DataKind × Nat × List (Nat × Nat)) :=
  if fieldNumber rec name < 0 then
    .error (.msg ("unrecognized column name: " ++ name))
  else
    match recField rec (fieldNumber rec name).toNat with
    | .scalar s => .ok (scalarTag s, 0, [])
    | v => .ok (cellKind v, (cellShape v).length, dimsWrites (cellShape v))

/-- Data handed through the untyped `void *data` parameter of the
generic get/put entry points, tagged by what the caller actually laid
out in the buffer. -/
inductive CellData
  | scalarD (s : CellScalar)
  | arrayD (es : List CellScalar)
  | stringD (sb : StringBridge)
  | stringArrD (sbs : List StringBridge)
  | recordD (id : Nat)
  | tableD (id : Nat)
deriving DecidableEq

/-- `tablerec_get_field` from glue.cc: the record-granularity generic
get.  The switch over `rec.type(field_num)` enumerates the SCALAR_CASE
and VECTOR_CASE macro expansions exactly as in the source; note that
`TpChar`, `TpUShort` (commented out there) and `TpInt64` (absent there)
fall to the default arm. -/
def tablerec_get_field (rec : Rec) (name : String) :
    Except GlueErr CellData :=
  if fieldNumber rec name < 0 then
    .error (.msg ("unrecognized keyword name: " ++ name))
  else
    match recField rec (fieldNumber rec name).toNat with
    | .scalar (.sBool b) => .ok (.scalarD (.sBool b))
    | .scalar (.sUChar x) => .ok (.scalarD (.sUChar x))
    | .scalar (.sShort x) => .ok (.scalarD (.sShort x))
    | .scalar (.sInt x) => .ok (.scalarD (.sInt x))
    | .scalar (.sUInt x) => .ok (.scalarD (.sUInt x))
    | .scalar (.sFloat x) => .ok (.scalarD (.sFloat x))
    | .scalar (.sDouble x) => .ok (.scalarD (.sDouble x))
    | .scalar (.sComplex a b) => .ok (.scalarD (.sComplex a b))
    | .scalar (.sDComplex a b) => .ok (.scalarD (.sDComplex a b))
    | .array .TpBool _ es => .ok (.arrayD es)
    | .array .TpUChar _ es => .ok (.arrayD es)
    | .array .TpShort _ es => .ok (.arrayD es)
    | .array .TpInt _ es => .ok (.arrayD es)
    | .array .TpUInt _ es => .ok (.arrayD es)
    | .array .TpFloat _ es => .ok (.arrayD es)
    | .array .TpDouble _ es => .ok (.arrayD es)
    | .array .TpComplex _ es => .ok (.arrayD es)
    | .array .TpDComplex _ es => .ok (.arrayD es)
    | .subrec _ =>
        .error (.msg "you must use tablerec_get_field_subrecord() for record fields")
    | .scalar (.sString _) =>
        .error (.msg "you must use tablerec_get_field_string() for string fields")
    | .array .TpString _ _ =>
        .error (.msg "you must use tablerec_get_field_string_array() for string-array fields")
    | _ => .error (.msg "unhandled field data type")

/-- `tablerec_get_field_string` from glue.cc: sentinel check, then the
`TpString` type check, then the copy-out through the string-bridge
callback. -/
def tablerec_get_field_string (rec : Rec) (name : String) :
    Except GlueErr (List StringBridge) :=
  if fieldNumber rec name < 0 then
    .error (.msg ("unrecognized keyword name: " ++ name))
  else
    match recField rec (fieldNumber rec name).toNat with
    | .scalar (.sString s) => .ok (unbridge_string s)
    | _ => .error (.msg "tablerec cell must be of TpString type")

/-- `tablerec_get_field_string_array` from glue.cc: sentinel check,
shape fetch, `TpArrayString` type check, then element-wise copy-out via
the string-bridge callback. -/
def tablerec_get_field_string_array (rec : Rec) (name : String) :
    Except GlueErr (List StringBridge) :=
  if fieldNumber rec name < 0 then
    .error (.msg ("unrecognized column name: " ++ name))
  else
    match recField rec (fieldNumber rec name).toNat with
    | .array .TpString _ es => .ok (unbridge_string_array es)
    | _ => .error (.msg "row cell must be of TpStringArray type")

/-- `tablerec_get_field_subrecord` from glue.cc: sentinel check,
`TpRecord` type check, then assignment of the sub-record into the
caller's record handle. -/
def tablerec_get_field_subrecord (rec : Rec) (name : String) :
    Except GlueErr Nat :=
  if fieldNumber rec name < 0 then
    .error (.msg ("unrecognized column name: " ++ name))
  else
    match recField rec (fieldNumber rec name).toNat with
    | .subrec id => .ok id
    | _ => .error (.msg "row cell must be of TpRecord type")

/-- `RecordInterface::define`: replace the named field's value, or
append a new field. -/
def upsertField (rec : Rec) (name : String) (v : CellValue) : Rec :=
  match rec.findIdx? (fun f => f.1 == name) with
  | some i => rec.set i (name, v)
  | none => rec ++ [(name, v)]

/-- Read `*(CPPTYPE *) data` for the scalar tag of a SCALAR_CASE arm:
succeeds when the caller laid out a value of that tag. -/
def readScalarAs (t : DataKind) (d : CellData) : Option CellScalar :=
  match d with
  | .scalarD v => if scalarTag v = t then some v else none
  | _ => none

/-- Read the element buffer for a VECTOR_CASE arm. -/
def readArrayD : CellData → Option (List CellScalar)
  | .arrayD es => some es
  | _ => none

/-- Store a scalar record field (body of a SCALAR_CASE arm of
`tablerec_put_field`). -/
def putRecScalar (rec : Rec) (name : String) (v? : Option CellScalar) :
    Except GlueErr Rec :=
  match v? with
  | some v => .ok (upsertField rec name (.scalar v))
  | none => .error .confusion

/-- Store an array record field (body of a VECTOR_CASE arm of
`tablerec_put_field`): the host shape is axis-reversed by the
`shape[i] = dims[n_dims - 1 - i]` loop, then the field is defined. -/
def putRecArray (rec : Rec) (name : String) (t : DataKind)
    (shape : List Nat) (es? : Option (List CellScalar)) :
    Except GlueErr Rec :=
  match es? with
  | some es => .ok (upsertField rec name (.array t shape es))
  | none => .error .confusion

/-- `tablerec_put_field` from glue.cc: the record-granularity generic
put, a switch over the `data_type` argument.  As in the source,
`TpChar`, `TpUShort` (commented out) and `TpInt64` (absent) fall to the
default "unhandled cell data type" arm, while `TpString`,
`TpArrayString`, `TpTable` and `TpRecord` have dedicated arms. -/
def tablerec_put_field (rec : Rec) (name : String) (data_type : DataKind)
    (n_dims : Nat) (dims : List Nat) (data : CellData) :
    Except GlueErr Rec :=
  match data_type with
  | .TpBool => putRecScalar rec name (readScalarAs .TpBool data)
  | .TpUChar => putRecScalar rec name (readScalarAs .TpUChar data)
  | .TpShort => putRecScalar rec name (readScalarAs .TpShort data)
  | .TpInt => putRecScalar rec name (readScalarAs .TpInt data)
  | .TpUInt => putRecScalar rec name (readScalarAs .TpUInt data)
  | .TpFloat => putRecScalar rec name (readScalarAs .TpFloat data)
  | .TpDouble => putRecScalar rec name (readScalarAs .TpDouble data)
  | .TpComplex => putRecScalar rec name (readScalarAs .TpComplex data)
  | .TpDComplex => putRecScalar rec name (readScalarAs .TpDComplex data)
  | .TpArrayBool => putRecArray rec name .TpBool (shapeToCasa n_dims dims) (readArrayD data)
  | .TpArrayUChar => putRecArray rec name .TpUChar (shapeToCasa n_dims dims) (readArrayD data)
  | .TpArrayShort => putRecArray rec name .TpShort (shapeToCasa n_dims dims) (readArrayD data)
  | .TpArrayInt => putRecArray rec name .TpInt (shapeToCasa n_dims dims) (readArrayD data)
  | .TpArrayUInt => putRecArray rec name .TpUInt (shapeToCasa n_dims dims) (readArrayD data)
  | .TpArrayFloat => putRecArray rec name .TpFloat (shapeToCasa n_dims dims) (readArrayD data)
  | .TpArrayDouble => putRecArray rec name .TpDouble (shapeToCasa n_dims dims) (readArrayD data)
  | .TpArrayComplex => putRecArray rec name .TpComplex (shapeToCasa n_dims dims) (readArrayD data)
  | .TpArrayDComplex => putRecArray rec name .TpDComplex (shapeToCasa n_dims dims) (readArrayD data)
  | .TpString =>
      match data with
      | .stringD sb => .ok (upsertField rec name (.scalar (.sString (bridge_string sb))))
      | _ => .error .confusion
  | .TpArrayString =>
      match data with
      | .stringArrD sbs =>
          .ok (upsertField rec name
            (.array .TpString (shapeToCasa n_dims dims)
              (sbs.map (fun sb => .sString (bridge_string sb)))))
      | _ => .error .confusion
  | .TpTable =>
      match data with
      | .tableD id => .ok (upsertField rec name (.tableRef id))
      | _ => .error .confusion
  | .TpRecord =>
      match data with
      | .recordD id => .ok (upsertField rec name (.subrec id))
      | _ => .error .confusion
  | _ => .error (.msg "unhandled cell data type")

-- Table columns and the cell-granularity dispatch

/-- One typed table column of the wrapped engine, as the glue observes
it: its element data kind (`ColumnDesc::dataType`), whether it is an
array column, the table's row count, an optional fixed shape
(native axis order; `none` for free-shape array columns and scalar
columns), and the per-row stored values. -/
structure Column where
  elemKind : DataKind
  isArray : Bool
  nrows : Nat
  fixedShape : Option (List Nat)
  cells : Nat → CellValue

/-- `ColumnDesc::trueDataType`: the array tag for array columns, the
element tag for scalar columns. -/
def trueDataType (col : Column) : DataKind :=
  if col.isArray then arrayTag col.elemKind else col.elemKind

/-- Engine exception message used by the model where a typed accessor
constructor (`ScalarColumn<T>` / `ArrayColumn<T>`) rejects a column of
a different kind.  (casacore raises its own exception here; the glue
only relays the message, which no claim inspects.) -/
def engineTypeMismatchMsg : String := "engine: column accessor data type mismatch"

/-- Engine exception message for an out-of-range row number. -/
def engineRowBoundsMsg : String := "engine: row number out of range"

/-- Engine exception message for an array put whose shape conflicts
with the column's fixed shape. -/
def engineShapeMismatchMsg : String := "engine: array shape conflicts with fixed column shape"

/-- A SCALAR_CASE arm of `table_put_cell`: construct
`ScalarColumn<CPPTYPE>` (the engine checks the column's kind), then
`col.put(row_number, *(CPPTYPE *) data)` (the engine checks the row
bound and stores the value). -/
def putScalarColumn (col : Column) (row : Nat) (t : DataKind)
    (v? : Option CellScalar) : Except GlueErr Column :=
  if col.isArray = true ∨ col.elemKind ≠ t then
    .error (.msg engineTypeMismatchMsg)
  else if row < col.nrows then
    match v? with
    | some v => .ok { col with cells := Function.update col.cells row (.scalar v) }
    | none => .error .confusion
  else .error (.msg engineRowBoundsMsg)

/-- Shape admissibility of an array put against the column's fixed
shape, if any. -/
def shapeOk : Option (List Nat) → List Nat → Bool
  | none, _ => true
  | some s, sh => s == sh

/-- A VECTOR_CASE arm of `table_put_cell`: construct
`ArrayColumn<CPPTYPE>` (kind check), build the axis-reversed shape,
wrap the caller's buffer, and `col.put(row_number, array)` (row bound
and fixed-shape check, then store).  Note the glue performs NO check of
the rank against the 8-axis cap here. -/
def putArrayColumn (col : Column) (row : Nat) (t : DataKind)
    (shape : List Nat) (es? : Option (List CellScalar)) : Except GlueErr Column :=
  if col.isArray = false ∨ col.elemKind ≠ t then
    .error (.msg engineTypeMismatchMsg)
  else if row < col.nrows then
    if shapeOk col.fixedShape shape then
      match es? with
      | some es => .ok { col with cells := Function.update col.cells row (.array t shape es) }
      | none => .error .confusion
    else .error (.msg engineShapeMismatchMsg)
  else .error (.msg engineRowBoundsMsg)

/-- Read `*(StringBridge *) data` for the `TpString` arm of
`table_put_cell` and bridge it into a native string value. -/
def readStringD : CellData → Option CellScalar
  | .stringD sb => some (.sString (bridge_string sb))
  | _ => none

/-- Read the `StringBridge` element buffer for the `TpArrayString` arm
and bridge it element-wise (`bridge_string_array`). -/
def readStringArrD : CellData → Option (List CellScalar)
  | .stringArrD sbs => some (sbs.map (fun sb => .sString (bridge_string sb)))
  | _ => none

/-- `table_put_cell` from glue.cc: the cell-granularity generic put, a
switch over the `data_type` argument.  The SCALAR_CASE arms here DO
include `TpChar` and `TpUShort`, but there is no `TpInt64` arm; any
unlisted tag falls to the default "unhandled cell data type" arm. -/
def table_put_cell (col : Column) (row : Nat) (data_type : DataKind)
    (n_dims : Nat) (dims : List Nat) (data : CellData) :
    Except GlueErr Column :=
  match data_type with
  | .TpBool => putScalarColumn col row .TpBool (readScalarAs .TpBool data)
  | .TpChar => putScalarColumn col row .TpChar (readScalarAs .TpChar data)
  | .TpUChar => putScalarColumn col row .TpUChar (readScalarAs .TpUChar data)
  | .TpShort => putScalarColumn col row .TpShort (readScalarAs .TpShort data)
  | .TpUShort => putScalarColumn col row .TpUShort (readScalarAs .TpUShort data)
  | .TpInt => putScalarColumn col row .TpInt (readScalarAs .TpInt data)
  | .TpUInt => putScalarColumn col row .TpUInt (readScalarAs .TpUInt data)
  | .TpFloat => putScalarColumn col row .TpFloat (readScalarAs .TpFloat data)
  | .TpDouble => putScalarColumn col row .TpDouble (readScalarAs .TpDouble data)
  | .TpComplex => putScalarColumn col row .TpComplex (readScalarAs .TpComplex data)
  | .TpDComplex => putScalarColumn col row .TpDComplex (readScalarAs .TpDComplex data)
  | .TpArrayBool => putArrayColumn col row .TpBool (shapeToCasa n_dims dims) (readArrayD data)
  | .TpArrayChar => putArrayColumn col row .TpChar (shapeToCasa n_dims dims) (readArrayD data)
  | .TpArrayUChar => putArrayColumn col row .TpUChar (shapeToCasa n_dims dims) (readArrayD data)
  | .TpArrayShort => putArrayColumn col row .TpShort (shapeToCasa n_dims dims) (readArrayD data)
  | .TpArrayUShort => putArrayColumn col row .TpUShort (shapeToCasa n_dims dims) (readArrayD data)
  | .TpArrayInt => putArrayColumn col row .TpInt (shapeToCasa n_dims dims) (readArrayD data)
  | .TpArrayUInt => putArrayColumn col row .TpUInt (shapeToCasa n_dims dims) (readArrayD data)
  | .TpArrayFloat => putArrayColumn col row .TpFloat (shapeToCasa n_dims dims) (readArrayD data)
  | .TpArrayDouble => putArrayColumn col row .TpDouble (shapeToCasa n_dims dims) (readArrayD data)
  | .TpArrayComplex => putArrayColumn col row .TpComplex (shapeToCasa n_dims dims) (readArrayD data)
  | .TpArrayDComplex => putArrayColumn col row .TpDComplex (shapeToCasa n_dims dims) (readArrayD data)
  | .TpString => putScalarColumn col row .TpString (readStringD data)
  | .TpArrayString => putArrayColumn col row .TpString (shapeToCasa n_dims dims) (readStringArrD data)
  | _ => .error (.msg "unhandled cell data type")

/-- A SCALAR_CASE arm of `table_get_cell`: `ScalarColumn<CPPTYPE>`
construction (kind check) and `*(CPPTYPE *) data = col.get(row_number)`
(row bound check, then load). -/
def getScalarColumn (col : Column) (row : Nat) (t : DataKind) :
    Except GlueErr CellData :=
  if col.isArray = true ∨ col.elemKind ≠ t then
    .error (.msg engineTypeMismatchMsg)
  else if row < col.nrows then
    match col.cells row with
    | .scalar v => if scalarTag v = t then .ok (.scalarD v) else .error .confusion
    | _ => .error .confusion
  else .error (.msg engineRowBoundsMsg)

/-- A VECTOR_CASE arm of `table_get_cell`: `ArrayColumn<CPPTYPE>`
construction (kind check) and bulk copy of the cell's elements into the
caller's buffer. -/
def getArrayColumn (col : Column) (row : Nat) (t : DataKind) :
    Except GlueErr CellData :=
  if col.isArray = false ∨ col.elemKind ≠ t then
    .error (.msg engineTypeMismatchMsg)
  else if row < col.nrows then
    match col.cells row with
    | .array _ _ es => .ok (.arrayD es)
    | _ => .error .confusion
  else .error (.msg engineRowBoundsMsg)

/-- `table_get_cell` from glue.cc: for non-scalar columns the cell's
shape is fetched first (`col.shape(row_number)`, which bounds-checks
the row), then the switch over `desc.trueDataType()` dispatches.
`TpString`/`TpArrayString` are rejected towards the dedicated entry
points; any unlisted tag (including `TpInt64`) falls to the default
"unhandled cell data type" arm. -/
def table_get_cell (col : Column) (row : Nat) : Except GlueErr CellData :=
  if col.isArray = true ∧ ¬ row < col.nrows then
    .error (.msg engineRowBoundsMsg)
  else
    match trueDataType col with
    | .TpBool => getScalarColumn col row .TpBool
    | .TpChar => getScalarColumn col row .TpChar
    | .TpUChar => getScalarColumn col row .TpUChar
    | .TpShort => getScalarColumn col row .TpShort
    | .TpUShort => getScalarColumn col row .TpUShort
    | .TpInt => getScalarColumn col row .TpInt
    | .TpUInt => getScalarColumn col row .TpUInt
    | .TpFloat => getScalarColumn col row .TpFloat
    | .TpDouble => getScalarColumn col row .TpDouble
    | .TpComplex => getScalarColumn col row .TpComplex
    | .TpDComplex => getScalarColumn col row .TpDComplex
    | .TpArrayBool => getArrayColumn col row .TpBool
    | .TpArrayChar => getArrayColumn col row .TpChar
    | .TpArrayUChar => getArrayColumn col row .TpUChar
    | .TpArrayShort => getArrayColumn col row .TpShort
    | .TpArrayUShort => getArrayColumn col row .TpUShort
    | .TpArrayInt => getArrayColumn col row .TpInt
    | .TpArrayUInt => getArrayColumn col row .TpUInt
    | .TpArrayFloat => getArrayColumn col row .TpFloat
    | .TpArrayDouble => getArrayColumn col row .TpDouble
    | .TpArrayComplex => getArrayColumn col row .TpComplex
    | .TpArrayDComplex => getArrayColumn col row .TpDComplex
    | .TpString => .error (.msg "you must use table_get_cell_string() for string cells")
    | .TpArrayString => .error (.msg "you must use table_get_cell_string_array() for string-array cells")
    | _ => .error (.msg "unhandled cell data type")

/-- `table_get_cell_info` from glue.cc: scalar columns report rank 0
and write nothing; for array columns the cell's rank is fetched
(bounds-checking the row), rejected with an explicit error when greater
than 8, and only then is the axis-reversing dims loop run. -/
def table_get_cell_info (col : Column) (row : Nat) :
    Except GlueErr (DataKind × Nat × List (Nat × Nat)) :=
  if col.isArray = false then .ok (col.elemKind, 0, [])
  else if row < col.nrows then
    let n := (cellShape (col.cells row)).length
    if n > 8 then
      .error (.msg "cannot handle cells with data of dimensionality greater than 8")
    else
      .ok (col.elemKind, n, dimsWrites (cellShape (col.cells row)))
  else .error (.msg engineRowBoundsMsg)

/-- `table_get_column_info` from glue.cc: the column's declared shape
(`desc.shape()`, empty unless the column is fixed-shape) is rejected
with an explicit error when its rank exceeds 8; otherwise the row
count, data kind, scalar/fixed-shape flags, rank (`desc.ndim()`, -1
for free-shape array columns) and reversed dims are reported. -/
def table_get_column_info (col : Column) :
    Except GlueErr (Nat × DataKind × Bool × Bool × Int × List (Nat × Nat)) :=
  let dshape := col.fixedShape.getD []
  if dshape.length > 8 then
    .error (.msg "cannot handle columns with data of dimensionality greater than 8")
  else
    let ndim : Int :=
      if col.isArray = false then 0
      else match col.fixedShape with
        | some s => (s.length : Int)
        | none => -1
    .ok (col.nrows, col.elemKind, !col.isArray,
         !col.isArray || col.fixedShape.isSome, ndim, dimsWrites dshape)

-- Row-cursor delegators (the staged record of a TableRow handle is a
-- TableRecord, and the row-granularity cell operations delegate to the
-- record-granularity field operations)

/-- `table_row_get_cell` from glue.cc: delegates to
`tablerec_get_field` on the cursor's staged record. -/
def table_row_get_cell (row : Rec) (name : String) : Except GlueErr CellData :=
  tablerec_get_field row name

/-- `table_row_put_cell` from glue.cc: delegates to
`tablerec_put_field` on the cursor's staged record. -/
def table_row_put_cell (row : Rec) (name : String) (data_type : DataKind)
    (n_dims : Nat) (dims : List Nat) (data : CellData) : Except GlueErr Rec :=
  tablerec_put_field row name data_type n_dims dims data

/-- `table_row_get_cell_info` from glue.cc: delegates to
`tablerec_get_field_info` on the cursor's staged record. -/
def table_row_get_cell_info (row : Rec) (name : String) :
    Except GlueErr (DataKind × Nat × List (Nat × Nat)) :=
  tablerec_get_field_info row name

-- Shared concrete tag lists and the spec-side element-size table

/-- The eleven numeric/boolean scalar element tags whose SCALAR_CASE /
VECTOR_CASE arms appear in the cell-granularity dispatch switches of
glue.cc (`table_put_cell` / `table_get_cell`). -/
def numericScalarTags : List DataKind :=
  [.TpBool, .TpChar, .TpUChar, .TpShort, .TpUShort, .TpInt, .TpUInt,
   .TpFloat, .TpDouble, .TpComplex, .TpDComplex]

/-- The element-size table as the SPEC words it (for the refinement
comparison of claim C6): the exact native byte width for the fixed-size
scalar tags and their array variants, and the sentinel -1 for String,
Table, Record, Other, Quantity and their array variants.
`TpNumberOfTypes` is outside the claim's enumeration (it is the
casacore enum terminator); the source returns -1 for it. -/
def elementSizeClaim : DataKind → Int
  | .TpBool | .TpArrayBool => 1
  | .TpChar | .TpArrayChar => 1
  | .TpUChar | .TpArrayUChar => 1
  | .TpShort | .TpArrayShort => 2
  | .TpUShort | .TpArrayUShort => 2
  | .TpInt | .TpArrayInt => 4
  | .TpUInt | .TpArrayUInt => 4
  | .TpFloat | .TpArrayFloat => 4
  | .TpDouble | .TpArrayDouble => 8
  | .TpComplex | .TpArrayComplex => 8
  | .TpDComplex | .TpArrayDComplex => 16
  | .TpInt64 | .TpArrayInt64 => 8
  | .TpString | .TpArrayString => -1
  | .TpTable => -1
  | .TpRecord => -1
  | .TpOther => -1
  | .TpQuantity | .TpArrayQuantity => -1
  | .TpNumberOfTypes => -1

-- Helper lemmas about the shape bridge and byte lists

theorem takeWhile_ne_zero (m : List Nat) (hm : (0 : Nat) ∉ m) :
    m.takeWhile (fun b => b != 0) = m := by
  induction m with
  | nil => rfl
  | cons a t ih =>
      simp only [List.mem_cons, not_or] at hm
      have ha : (a != 0) = true := by
        simpa [bne_iff_ne] using (Ne.symm hm.1)
      simp [List.takeWhile_cons, ha, ih hm.2]

theorem shapeToCasa_length (n : Nat) (dims : List Nat) :
    (shapeToCasa n dims).length = n := by
  simp [shapeToCasa]

theorem shapeToCasa_eq_reverse (l : List Nat) :
    shapeToCasa l.length l = l.reverse := by
  apply List.ext_getElem
  · simp [shapeToCasa]
  · intro i h1 h2
    have hi : i < l.length := by simpa [shapeToCasa] using h1
    have hb : l.length - 1 - i < l.length := by omega
    simp only [shapeToCasa, List.getElem_map, List.getElem_range,
      List.getElem_reverse]
    exact List.getD_eq_getElem l 0 hb

theorem shapeToHost_shapeToCasa (dims : List Nat) :
    shapeToHost (shapeToCasa dims.length dims) = dims := by
  rw [shapeToCasa_eq_reverse, shapeToHost]
  have : dims.reverse.length = dims.reverse.length := rfl
  rw [shapeToCasa_eq_reverse, List.reverse_reverse]

theorem dimsWrites_shapeToCasa (l : List Nat) :
    dimsWrites (shapeToCasa l.length l) =
      ((List.range l.length).map (fun j => (j, l.getD j 0))).reverse := by
  rw [shapeToCasa_eq_reverse]
  apply List.ext_getElem
  · simp [dimsWrites]
  · intro i h1 h2
    have hi : i < l.length := by simpa [dimsWrites] using h1
    have hb : l.length - 1 - i < l.length := by omega
    simp only [dimsWrites, List.length_reverse, List.getElem_map,
      List.getElem_range, List.getElem_reverse, List.length_map,
      List.length_range]
    simp only [Prod.mk.injEq, true_and]
    rw [List.getD_eq_getElem _ 0 (by simpa using hi),
      List.getD_eq_getElem l 0 hb]
    simp [List.getElem_reverse]

/-- C6: for every DataKind tag, `data_type_get_element_size` returns
the exact native element byte width for the fixed-size scalar tags and
their array variants (Bool, Char, UChar, Short, UShort, Int, UInt,
Float, Double, Complex, DComplex, Int64), and the sentinel -1 for
String, Table, Record, Other, Quantity and their array variants, as
enumerated by `elementSizeClaim`. -/
theorem data_type_get_element_size_matches_claim :
    ∀ t : DataKind, data_type_get_element_size t = elementSizeClaim t := by
  intro t
  cases t <;> rfl

/-- C9: bridging a zero-length StringView reads no bytes and produces
the empty native string, and unbridging it back invokes the callback
exactly once, synchronously, with a StringView of byte length 0. -/
theorem empty_string_bridge_roundtrip :
    ∀ buf : List Nat,
      bridge_string ⟨buf, 0⟩ = []
      ∧ unbridge_string (bridge_string ⟨buf, 0⟩) = [⟨[], 0⟩]
      ∧ (unbridge_string (bridge_string ⟨buf, 0⟩)).length = 1 := by
  intro buf
  refine ⟨rfl, ?_, ?_⟩ <;> simp [bridge_string, unbridge_string]

/-- C3: axis reversal is self-inverse for shapes of rank at most 8:
a host-order shape bridged to native order by the put-cell loop
(`shapeToCasa`) and bridged back by the describe loop (`shapeToHost`,
whose stores are `dimsWrites`) yields the original sequence.  Stated
both as the pure round-trip and end-to-end: putting an array cell with
host dims and then describing that cell reports exactly the stores
`dims[j] := dims_j`. -/
theorem shape_axis_reversal_roundtrip
    (col : Column) (row : Nat) (t : DataKind) (dims : List Nat)
    (es : List CellScalar)
    (ht : t ∈ numericScalarTags) (ha : col.isArray = true)
    (hk : col.elemKind = t) (hfree : col.fixedShape = none)
    (hr : row < col.nrows) (h8 : dims.length ≤ 8) :
    shapeToHost (shapeToCasa dims.length dims) = dims
    ∧ table_put_cell col row (arrayTag t) dims.length dims (.arrayD es)
        = .ok { col with
            cells := Function.update col.cells row (.array t (shapeToCasa dims.length dims) es) }
    ∧ table_get_cell_info
        { col with
            cells := Function.update col.cells row (.array t (shapeToCasa dims.length dims) es) }
        row
        = .ok (t, dims.length,
            ((List.range dims.length).map (fun j => (j, dims.getD j 0))).reverse) := by
  refine ⟨shapeToHost_shapeToCasa dims, ?_, ?_⟩
  · simp only [numericScalarTags, List.mem_cons, List.not_mem_nil, or_false] at ht
    rcases ht with rfl | rfl | rfl | rfl | rfl | rfl | rfl | rfl | rfl | rfl | rfl <;>
      simp [table_put_cell, arrayTag, putArrayColumn, ha, hk, hfree, hr,
        shapeOk, readArrayD]
  · simp [table_get_cell_info, ha, hr, cellShape, Function.update_same,
      shapeToCasa_length, hk, dimsWrites_shapeToCasa, h8,
      Nat.not_lt.mpr h8]

/-- C3 witness: concrete instantiation at a free-shape Int array
column and the host-order shape [2, 3, 4]. -/
theorem shape_axis_reversal_roundtrip_witness :
    DataKind.TpInt ∈ numericScalarTags
    ∧ shapeToHost (shapeToCasa 3 [2, 3, 4]) = [2, 3, 4]
    ∧ table_put_cell
        ⟨.TpInt, true, 1, none, fun _ => .scalar (.sBool false)⟩ 0 (arrayTag .TpInt) 3
        [2, 3, 4] (.arrayD [.sInt 1])
        = .ok { (⟨.TpInt, true, 1, none, fun _ => .scalar (.sBool false)⟩ : Column) with
            cells := Function.update
              (fun _ => CellValue.scalar (.sBool false)) 0
              (.array .TpInt (shapeToCasa 3 [2, 3, 4]) [.sInt 1]) }
    ∧ table_get_cell_info
        { (⟨.TpInt, true, 1, none, fun _ => .scalar (.sBool false)⟩ : Column) with
            cells := Function.update
              (fun _ => CellValue.scalar (.sBool false)) 0
              (.array .TpInt (shapeToCasa 3 [2, 3, 4]) [.sInt 1]) } 0
        = .ok (.TpInt, 3,
            ((List.range 3).map (fun j => (j, [2, 3, 4].getD j 0))).reverse) := by
  have h := shape_axis_reversal_roundtrip
    ⟨.TpInt, true, 1, none, fun _ => .scalar (.sBool false)⟩ 0 .TpInt
    [2, 3, 4] [.sInt 1] (by decide) rfl rfl rfl (by decide) (by decide)
  exact ⟨by decide, h.1, h.2.1, h.2.2⟩

theorem placeholderBytes_length : placeholderBytes.length = 37 := by rfl

/-- C1: the catch-all boundary.  Whenever the native operation inside a
boundary entry point raises any exception, `handle_exception` rebuilds
the fixed 512-byte message buffer: it stays 512 bytes long, is always
NUL-terminated (contains a 0 byte), holds the exception's message
truncated to 511 bytes when the exception carries one, and holds the
generic placeholder when it does not; the wrapped call frames
(`runAllocCall`, `runActionCall`, and `tablerec_create` as a concrete
allocating entry point) catch the exception — these are total
functions, so nothing propagates — and return the failure sentinel
(NULL respectively nonzero) together with the populated buffer. -/
theorem exception_boundary (e : CppExc) (old : ExcInfo) (m : List Nat)
    (hlen : old.message.length = 512) (hm : (0 : Nat) ∉ m) :
    (handle_exception old e).message.length = 512
    ∧ (0 : Nat) ∈ (handle_exception old e).message
    ∧ (e = .stdExc m →
        (handle_exception old e).message.take (min m.length 511) = m.take 511)
    ∧ (handle_exception old .unknownExc).message.take 38 = placeholderBytes ++ [0]
    ∧ runAllocCall (α := Rec) (.error e) old = (none, handle_exception old e)
    ∧ runActionCall (α := Unit) (.error e) old = (1, handle_exception old e)
    ∧ tablerec_create (.error e) old = (none, handle_exception old e) := by
  have hpl : (placeholderBytes ++ [0]).length = 38 := by
    simp [placeholderBytes_length]
  refine ⟨?_, ?_, ?_, ?_, rfl, rfl, rfl⟩
  · cases e with
    | stdExc w =>
        have hc : ((w.takeWhile (fun b => b != 0)).take 511).length ≤ 511 := by
          simp
        simp only [handle_exception, List.length_append, List.length_replicate]
        omega
    | unknownExc =>
        simp only [handle_exception, List.length_append, List.length_drop,
          placeholderBytes_length, List.length_cons, List.length_nil, hlen]
  · cases e with
    | stdExc w =>
        have hc : ((w.takeWhile (fun b => b != 0)).take 511).length ≤ 511 := by
          simp
        simp only [handle_exception, List.mem_append]
        right
        rw [List.mem_replicate]
        omega
    | unknownExc => simp [handle_exception]
  · intro he
    subst he
    simp only [handle_exception]
    rw [takeWhile_ne_zero m hm]
    have hl : (m.take 511).length = min m.length 511 := by
      simp [Nat.min_comm]
    rw [← hl, List.take_left]
  · simp only [handle_exception]
    rw [← hpl, List.take_left]

/-- C1 witness: a concrete 600-byte exception message against a dirty
512-byte buffer. -/
theorem exception_boundary_witness :
    ((⟨List.replicate 512 1⟩ : ExcInfo).message.length = 512)
    ∧ ((0 : Nat) ∉ List.replicate 600 65)
    ∧ ((handle_exception ⟨List.replicate 512 1⟩ (.stdExc (List.replicate 600 65))).message.length = 512
      ∧ (0 : Nat) ∈ (handle_exception ⟨List.replicate 512 1⟩ (.stdExc (List.replicate 600 65))).message
      ∧ (CppExc.stdExc (List.replicate 600 65) = .stdExc (List.replicate 600 65) →
          (handle_exception ⟨List.replicate 512 1⟩ (.stdExc (List.replicate 600 65))).message.take
            (min (List.replicate 600 65).length 511) = (List.replicate 600 65).take 511)
      ∧ (handle_exception ⟨List.replicate 512 1⟩ .unknownExc).message.take 38
          = placeholderBytes ++ [0]
      ∧ runAllocCall (α := Rec) (.error (.stdExc (List.replicate 600 65))) ⟨List.replicate 512 1⟩
          = (none, handle_exception ⟨List.replicate 512 1⟩ (.stdExc (List.replicate 600 65)))
      ∧ runActionCall (α := Unit) (.error (.stdExc (List.replicate 600 65))) ⟨List.replicate 512 1⟩
          = (1, handle_exception ⟨List.replicate 512 1⟩ (.stdExc (List.replicate 600 65)))
      ∧ tablerec_create (.error (.stdExc (List.replicate 600 65))) ⟨List.replicate 512 1⟩
          = (none, handle_exception ⟨List.replicate 512 1⟩ (.stdExc (List.replicate 600 65)))) := by
  have h1 : ((⟨List.replicate 512 1⟩ : ExcInfo).message.length = 512) := by
    rw [List.length_replicate]
  have h2 : (0 : Nat) ∉ List.replicate 600 65 := by
    rw [List.mem_replicate]
    omega
  exact ⟨h1, h2,
    exception_boundary (.stdExc (List.replicate 600 65)) ⟨List.replicate 512 1⟩
      (List.replicate 600 65) h1 h2⟩

/-- C2 counterexample: the claim quantifies over every scalar tag
except String, Table and Record, which includes `TpInt64`; but
`table_put_cell` has no `TpInt64` arm (the SCALAR_CASE list in glue.cc
stops at `TpDComplex`), so a put of an Int64 value on an Int64 column
with a valid row hits the default arm and fails instead of
succeeding. -/
theorem put_cell_int64_rejected :
    table_put_cell ⟨.TpInt64, false, 1, none, fun _ => .scalar (.sInt64 0)⟩
      0 .TpInt64 0 [] (.scalarD (.sInt64 128))
      = .error (.msg "unhandled cell data type") := rfl

/-- C2 (amended): for every scalar tag actually enumerated by the
cell-granularity SCALAR_CASE arms (Bool, Char, UChar, Short, UShort,
Int, UInt, Float, Double, Complex, DComplex — i.e. all scalar tags
except String, Table, Record, and also except Int64, Other and
Quantity, which the dispatch does not handle), and for every value of
that tag's type, `table_put_cell` followed by `table_get_cell` on the
same cell of a column declared with that tag succeeds and returns the
value unchanged. -/
theorem put_get_cell_roundtrip (col : Column) (row : Nat) (v : CellScalar)
    (ht : scalarTag v ∈ numericScalarTags)
    (ha : col.isArray = false) (hk : col.elemKind = scalarTag v)
    (hr : row < col.nrows) :
    table_put_cell col row (scalarTag v) 0 [] (.scalarD v)
      = .ok { col with cells := Function.update col.cells row (.scalar v) }
    ∧ table_get_cell
        { col with cells := Function.update col.cells row (.scalar v) } row
      = .ok (.scalarD v) := by
  cases v <;>
    simp only [numericScalarTags, scalarTag, List.mem_cons,
      List.not_mem_nil, or_false, reduceCtorEq, or_self] at ht <;>
    constructor <;>
    simp [table_put_cell, table_get_cell, trueDataType, putScalarColumn,
      getScalarColumn, readScalarAs, scalarTag, ha, hk, hr,
      Function.update_same]

/-- C2 witness: round trip of the maximum unsigned byte value 255
through a `TpUChar` column. -/
theorem put_get_cell_roundtrip_witness :
    scalarTag (.sUChar 255) ∈ numericScalarTags
    ∧ (⟨.TpUChar, false, 1, none, fun _ => .scalar (.sUChar 0)⟩ : Column).isArray = false
    ∧ (⟨.TpUChar, false, 1, none, fun _ => .scalar (.sUChar 0)⟩ : Column).elemKind
        = scalarTag (.sUChar 255)
    ∧ 0 < (⟨.TpUChar, false, 1, none, fun _ => .scalar (.sUChar 0)⟩ : Column).nrows
    ∧ (table_put_cell ⟨.TpUChar, false, 1, none, fun _ => .scalar (.sUChar 0)⟩
        0 (scalarTag (.sUChar 255)) 0 [] (.scalarD (.sUChar 255))
        = .ok { (⟨.TpUChar, false, 1, none, fun _ => .scalar (.sUChar 0)⟩ : Column) with
            cells := Function.update (fun _ => CellValue.scalar (.sUChar 0)) 0
              (.scalar (.sUChar 255)) }
      ∧ table_get_cell
          { (⟨.TpUChar, false, 1, none, fun _ => .scalar (.sUChar 0)⟩ : Column) with
              cells := Function.update (fun _ => CellValue.scalar (.sUChar 0)) 0
                (.scalar (.sUChar 255)) } 0
        = .ok (.scalarD (.sUChar 255))) :=
  ⟨by decide, rfl, rfl, by decide,
    put_get_cell_roundtrip
      ⟨.TpUChar, false, 1, none, fun _ => .scalar (.sUChar 0)⟩ 0 (.sUChar 255)
      (by decide) rfl rfl (by decide)⟩

/-- C4 counterexample: the claim says a rank-9 put must fail with a
dimensionality error and perform no write; but `table_put_cell`
contains no dimensionality check at all, so on a free-shape Int array
column the rank-9 put succeeds and stores the cell. -/
theorem put_cell_rank9_performs_write :
    table_put_cell ⟨.TpInt, true, 1, none, fun _ => .scalar (.sBool false)⟩
      0 .TpArrayInt 9 [1, 1, 1, 1, 1, 1, 1, 1, 1] (.arrayD [.sInt 7])
      = .ok { (⟨.TpInt, true, 1, none, fun _ => .scalar (.sBool false)⟩ : Column) with
          cells := Function.update (fun _ => CellValue.scalar (.sBool false)) 0
            (.array .TpInt (shapeToCasa 9 [1, 1, 1, 1, 1, 1, 1, 1, 1]) [.sInt 7]) } := rfl

/-- C4 (amended): `table_put_cell` performs NO dimensionality check;
with an array data type and a rank-9 shape on a kind-matching
free-shape array column with a valid row, the shape is axis-reversed
and handed to the engine, which performs the write.  The rank-8 cap is
enforced only by the describe operations: describing the freshly
written rank-9 cell fails with the explicit dimensionality error. -/
theorem put_cell_rank9_unchecked (col : Column) (row : Nat) (t : DataKind)
    (dims : List Nat) (es : List CellScalar)
    (ht : t ∈ numericScalarTags) (ha : col.isArray = true)
    (hk : col.elemKind = t) (hfree : col.fixedShape = none)
    (hr : row < col.nrows) (_hd : dims.length = 9) :
    table_put_cell col row (arrayTag t) 9 dims (.arrayD es)
      = .ok { col with
          cells := Function.update col.cells row (.array t (shapeToCasa 9 dims) es) }
    ∧ table_get_cell_info
        { col with
            cells := Function.update col.cells row (.array t (shapeToCasa 9 dims) es) }
        row
      = .error (.msg "cannot handle cells with data of dimensionality greater than 8") := by
  constructor
  · simp only [numericScalarTags, List.mem_cons, List.not_mem_nil,
      or_false] at ht
    rcases ht with rfl | rfl | rfl | rfl | rfl | rfl | rfl | rfl | rfl | rfl | rfl <;>
      simp [table_put_cell, arrayTag, putArrayColumn, ha, hk, hfree, hr,
        shapeOk, readArrayD]
  · simp [table_get_cell_info, ha, hr, cellShape, Function.update_same,
      shapeToCasa_length]

/-- C4 witness: concrete rank-9 put on a free-shape Double array
column. -/
theorem put_cell_rank9_unchecked_witness :
    DataKind.TpDouble ∈ numericScalarTags
    ∧ ([2, 1, 1, 1, 1, 1, 1, 1, 1] : List Nat).length = 9
    ∧ (table_put_cell ⟨.TpDouble, true, 2, none, fun _ => .scalar (.sBool false)⟩
        1 (arrayTag .TpDouble) 9 [2, 1, 1, 1, 1, 1, 1, 1, 1] (.arrayD [.sDouble 0, .sDouble 1])
        = .ok { (⟨.TpDouble, true, 2, none, fun _ => .scalar (.sBool false)⟩ : Column) with
            cells := Function.update (fun _ => CellValue.scalar (.sBool false)) 1
              (.array .TpDouble (shapeToCasa 9 [2, 1, 1, 1, 1, 1, 1, 1, 1])
                [.sDouble 0, .sDouble 1]) }
      ∧ table_get_cell_info
          { (⟨.TpDouble, true, 2, none, fun _ => .scalar (.sBool false)⟩ : Column) with
              cells := Function.update (fun _ => CellValue.scalar (.sBool false)) 1
                (.array .TpDouble (shapeToCasa 9 [2, 1, 1, 1, 1, 1, 1, 1, 1])
                  [.sDouble 0, .sDouble 1]) } 1
        = .error (.msg "cannot handle cells with data of dimensionality greater than 8")) :=
  ⟨by decide, by decide,
    put_cell_rank9_unchecked
      ⟨.TpDouble, true, 2, none, fun _ => .scalar (.sBool false)⟩ 1 .TpDouble
      [2, 1, 1, 1, 1, 1, 1, 1, 1] [.sDouble 0, .sDouble 1]
      (by decide) rfl rfl rfl (by decide) (by decide)⟩

/-- C5: the claim requires ALL THREE describe granularities to reject
dimensionality greater than 8 before touching the caller's 8-entry
dims buffer.  The two table-granularity operations do
(`table_get_cell_info`, `table_get_column_info`), but
`tablerec_get_field_info` — used for record fields and, via
`table_row_get_cell_info`, for row-staged fields — performs no such
check: on a record holding a rank-9 integer array field it returns
SUCCESS and its dims loop performs the store `dims[8] := 1`, one entry
past the end of the `unsigned long dims[8]` out-parameter declared in
its own prototype in glue.h.  (Such a field is reachable through the
bridge itself: `tablerec_put_field` accepts any `n_dims`.) -/
theorem tablerec_get_field_info_rank9_overflow :
    tablerec_get_field_info
      [("X", .array .TpInt [1, 1, 1, 1, 1, 1, 1, 1, 1] [.sInt 0])] "X"
      = .ok (.TpArrayInt, 9, dimsWrites [1, 1, 1, 1, 1, 1, 1, 1, 1])
    ∧ (8, 1) ∈ dimsWrites [1, 1, 1, 1, 1, 1, 1, 1, 1]
    ∧ table_row_get_cell_info
        [("X", .array .TpInt [1, 1, 1, 1, 1, 1, 1, 1, 1] [.sInt 0])] "X"
      = .ok (.TpArrayInt, 9, dimsWrites [1, 1, 1, 1, 1, 1, 1, 1, 1])
    ∧ table_get_cell_info
        ⟨.TpInt, true, 1, none,
          fun _ => .array .TpInt [1, 1, 1, 1, 1, 1, 1, 1, 1] [.sInt 0]⟩ 0
      = .error (.msg "cannot handle cells with data of dimensionality greater than 8")
    ∧ table_get_column_info
        ⟨.TpInt, true, 1, some [1, 1, 1, 1, 1, 1, 1, 1, 1],
          fun _ => .scalar (.sBool false)⟩
      = .error (.msg "cannot handle columns with data of dimensionality greater than 8") := by
  refine ⟨rfl, by decide, rfl, rfl, rfl⟩

/-- C7: calling the generic get path on a String, ArrayString or (at
record granularity) Record field returns the failure sentinel with the
exact error directing the caller to the dedicated entry point, at both
granularities.  The generic paths produce data only on success (each
error is raised before any store through the caller's `data` pointer),
so nothing is written into the caller's buffer. -/
theorem generic_get_dedicated_redirect :
    (∀ (rec : Rec) (name : String) (s : List Nat),
      0 ≤ fieldNumber rec name →
      recField rec (fieldNumber rec name).toNat = .scalar (.sString s) →
      tablerec_get_field rec name
        = .error (.msg "you must use tablerec_get_field_string() for string fields"))
    ∧ (∀ (rec : Rec) (name : String) (sh : List Nat) (es : List CellScalar),
      0 ≤ fieldNumber rec name →
      recField rec (fieldNumber rec name).toNat = .array .TpString sh es →
      tablerec_get_field rec name
        = .error (.msg "you must use tablerec_get_field_string_array() for string-array fields"))
    ∧ (∀ (rec : Rec) (name : String) (id : Nat),
      0 ≤ fieldNumber rec name →
      recField rec (fieldNumber rec name).toNat = .subrec id →
      tablerec_get_field rec name
        = .error (.msg "you must use tablerec_get_field_subrecord() for record fields"))
    ∧ (∀ (col : Column) (row : Nat),
      col.isArray = false → col.elemKind = .TpString →
      table_get_cell col row
        = .error (.msg "you must use table_get_cell_string() for string cells"))
    ∧ (∀ (col : Column) (row : Nat),
      col.isArray = true → col.elemKind = .TpString → row < col.nrows →
      table_get_cell col row
        = .error (.msg "you must use table_get_cell_string_array() for string-array cells")) := by
  refine ⟨?_, ?_, ?_, ?_, ?_⟩
  · intro rec name s h1 h2
    rw [tablerec_get_field, if_neg (by omega), h2]
  · intro rec name sh es h1 h2
    rw [tablerec_get_field, if_neg (by omega), h2]
  · intro rec name id h1 h2
    rw [tablerec_get_field, if_neg (by omega), h2]
  · intro col row h1 h2
    simp [table_get_cell, trueDataType, h1, h2]
  · intro col row h1 h2 h3
    simp [table_get_cell, trueDataType, arrayTag, h1, h2, h3]

/-- C7 witness: a record with one String field "s", one string-array
field "a" and one sub-record field "r", and scalar/array String
columns, each probed through the generic get path. -/
theorem generic_get_dedicated_redirect_witness :
    tablerec_get_field
        [("s", .scalar (.sString [104, 105])),
         ("a", .array .TpString [1] [.sString [104]]),
         ("r", .subrec 0)] "s"
      = .error (.msg "you must use tablerec_get_field_string() for string fields")
    ∧ tablerec_get_field
        [("s", .scalar (.sString [104, 105])),
         ("a", .array .TpString [1] [.sString [104]]),
         ("r", .subrec 0)] "a"
      = .error (.msg "you must use tablerec_get_field_string_array() for string-array fields")
    ∧ tablerec_get_field
        [("s", .scalar (.sString [104, 105])),
         ("a", .array .TpString [1] [.sString [104]]),
         ("r", .subrec 0)] "r"
      = .error (.msg "you must use tablerec_get_field_subrecord() for record fields")
    ∧ table_get_cell ⟨.TpString, false, 1, none, fun _ => .scalar (.sString [])⟩ 0
      = .error (.msg "you must use table_get_cell_string() for string cells")
    ∧ table_get_cell ⟨.TpString, true, 1, none, fun _ => .array .TpString [1] [.sString []]⟩ 0
      = .error (.msg "you must use table_get_cell_string_array() for string-array cells") :=
  ⟨generic_get_dedicated_redirect.1 _ "s" [104, 105] (by decide) (by decide),
   generic_get_dedicated_redirect.2.1 _ "a" [1] [.sString [104]] (by decide) (by decide),
   generic_get_dedicated_redirect.2.2.1 _ "r" 0 (by decide) (by decide),
   generic_get_dedicated_redirect.2.2.2.1 _ 0 rfl rfl,
   generic_get_dedicated_redirect.2.2.2.2 _ 0 rfl rfl (by decide)⟩

/-- C8: every record field operation checks the negative not-found
sentinel of `fieldNumber` before any typed access; on an absent field
name each returns the failure sentinel with its explicit
"unrecognized ... name" message (and, since the functions produce
output only on success, nothing reaches the caller's out
parameters). -/
theorem unrecognized_field_name_errors (rec : Rec) (name : String)
    (h : fieldNumber rec name < 0) :
    tablerec_get_field_info rec name
      = .error (.msg ("unrecognized column name: " ++ name))
    ∧ tablerec_get_field rec name
      = .error (.msg ("unrecognized keyword name: " ++ name))
    ∧ tablerec_get_field_string rec name
      = .error (.msg ("unrecognized keyword name: " ++ name))
    ∧ tablerec_get_field_string_array rec name
      = .error (.msg ("unrecognized column name: " ++ name))
    ∧ tablerec_get_field_subrecord rec name
      = .error (.msg ("unrecognized column name: " ++ name)) := by
  refine ⟨?_, ?_, ?_, ?_, ?_⟩
  · rw [tablerec_get_field_info, if_pos h]
  · rw [tablerec_get_field, if_pos h]
  · rw [tablerec_get_field_string, if_pos h]
  · rw [tablerec_get_field_string_array, if_pos h]
  · rw [tablerec_get_field_subrecord, if_pos h]

/-- C8 witness: looking up the absent name "MISSING" in a one-field
record fails through every record field operation. -/
theorem unrecognized_field_name_errors_witness :
    fieldNumber [("N", CellValue.scalar (.sInt 5))] "MISSING" < 0
    ∧ (tablerec_get_field_info [("N", CellValue.scalar (.sInt 5))] "MISSING"
        = .error (.msg ("unrecognized column name: " ++ "MISSING"))
      ∧ tablerec_get_field [("N", CellValue.scalar (.sInt 5))] "MISSING"
        = .error (.msg ("unrecognized keyword name: " ++ "MISSING"))
      ∧ tablerec_get_field_string [("N", CellValue.scalar (.sInt 5))] "MISSING"
        = .error (.msg ("unrecognized keyword name: " ++ "MISSING"))
      ∧ tablerec_get_field_string_array [("N", CellValue.scalar (.sInt 5))] "MISSING"
        = .error (.msg ("unrecognized column name: " ++ "MISSING"))
      ∧ tablerec_get_field_subrecord [("N", CellValue.scalar (.sInt 5))] "MISSING"
        = .error (.msg ("unrecognized column name: " ++ "MISSING"))) :=
  ⟨by decide,
    unrecognized_field_name_errors [("N", CellValue.scalar (.sInt 5))] "MISSING"
      (by decide)⟩

/-- C10 counterexample: the claim asserts that TpChar, TpUShort and
TpInt64 "are handled by the table-cell-granularity get/put dispatch";
for TpInt64 this is false — `table_get_cell` on a scalar Int64 column
also hits the default "unhandled cell data type" arm (glue.cc's
cell-granularity switches stop at TpDComplex and have no Int64 arm). -/
theorem get_cell_int64_unhandled :
    table_get_cell ⟨.TpInt64, false, 1, none, fun _ => .scalar (.sInt64 3)⟩ 0
      = .error (.msg "unhandled cell data type") := rfl

/-- C10 (amended): at the record/row-staged granularity
(`tablerec_get_field` / `tablerec_put_field`, and by delegation
`table_row_get_cell` / `table_row_put_cell`), the fixed-size numeric
tags TpChar, TpUShort, TpInt64 and their array variants are not
handled: every get on a field of one of those kinds and every put with
one of those tags fails with "unhandled field data type" /
"unhandled cell data type" instead of copying the element.  TpChar,
TpUShort and their array variants ARE handled by the cell-granularity
dispatch (`table_put_cell` succeeds on matching columns), but TpInt64
and TpArrayInt64 are unhandled at the cell granularity as well. -/
theorem record_granularity_unhandled_tags :
    (∀ (rec : Rec) (name : String) (c : Int),
      0 ≤ fieldNumber rec name →
      recField rec (fieldNumber rec name).toNat = .scalar (.sChar c) →
      tablerec_get_field rec name = .error (.msg "unhandled field data type"))
    ∧ (∀ (rec : Rec) (name : String) (c : Nat),
      0 ≤ fieldNumber rec name →
      recField rec (fieldNumber rec name).toNat = .scalar (.sUShort c) →
      tablerec_get_field rec name = .error (.msg "unhandled field data type"))
    ∧ (∀ (rec : Rec) (name : String) (c : Int),
      0 ≤ fieldNumber rec name →
      recField rec (fieldNumber rec name).toNat = .scalar (.sInt64 c) →
      tablerec_get_field rec name = .error (.msg "unhandled field data type"))
    ∧ (∀ (rec : Rec) (name : String) (t : DataKind) (sh : List Nat)
        (es : List CellScalar),
      t ∈ [DataKind.TpChar, .TpUShort, .TpInt64] →
      0 ≤ fieldNumber rec name →
      recField rec (fieldNumber rec name).toNat = .array t sh es →
      tablerec_get_field rec name = .error (.msg "unhandled field data type"))
    ∧ (∀ (t : DataKind),
      t ∈ [DataKind.TpChar, .TpUShort, .TpInt64, .TpArrayChar, .TpArrayUShort, .TpArrayInt64] →
      ∀ (rec : Rec) (name : String) (n : Nat) (dims : List Nat) (d : CellData),
      tablerec_put_field rec name t n dims d = .error (.msg "unhandled cell data type"))
    ∧ (∀ (row : Rec) (name : String),
      table_row_get_cell row name = tablerec_get_field row name)
    ∧ (∀ (row : Rec) (name : String) (t : DataKind) (n : Nat)
        (dims : List Nat) (d : CellData),
      table_row_put_cell row name t n dims d = tablerec_put_field row name t n dims d)
    ∧ (∀ (col : Column) (row : Nat) (c : Int),
      col.isArray = false → col.elemKind = .TpChar → row < col.nrows →
      table_put_cell col row .TpChar 0 [] (.scalarD (.sChar c))
        = .ok { col with cells := Function.update col.cells row (.scalar (.sChar c)) })
    ∧ (∀ (col : Column) (row : Nat) (c : Nat),
      col.isArray = false → col.elemKind = .TpUShort → row < col.nrows →
      table_put_cell col row .TpUShort 0 [] (.scalarD (.sUShort c))
        = .ok { col with cells := Function.update col.cells row (.scalar (.sUShort c)) })
    ∧ (∀ (col : Column) (row : Nat) (dims : List Nat) (es : List CellScalar),
      col.isArray = true → col.elemKind = .TpChar → col.fixedShape = none →
      row < col.nrows →
      table_put_cell col row .TpArrayChar dims.length dims (.arrayD es)
        = .ok { col with
            cells := Function.update col.cells row
              (.array .TpChar (shapeToCasa dims.length dims) es) })
    ∧ (∀ (col : Column) (row : Nat) (dims : List Nat) (es : List CellScalar),
      col.isArray = true → col.elemKind = .TpUShort → col.fixedShape = none →
      row < col.nrows →
      table_put_cell col row .TpArrayUShort dims.length dims (.arrayD es)
        = .ok { col with
            cells := Function.update col.cells row
              (.array .TpUShort (shapeToCasa dims.length dims) es) })
    ∧ (∀ (col : Column) (row : Nat) (n : Nat) (dims : List Nat) (d : CellData),
      table_put_cell col row .TpInt64 n dims d
        = .error (.msg "unhandled cell data type"))
    ∧ (∀ (col : Column) (row : Nat) (n : Nat) (dims : List Nat) (d : CellData),
      table_put_cell col row .TpArrayInt64 n dims d
        = .error (.msg "unhandled cell data type"))
    ∧ (∀ (col : Column) (row : Nat),
      col.isArray = false → col.elemKind = .TpInt64 →
      table_get_cell col row = .error (.msg "unhandled cell data type")) := by
  refine ⟨?_, ?_, ?_, ?_, ?_, ?_, ?_, ?_, ?_, ?_, ?_, ?_, ?_, ?_⟩
  · intro rec name c h1 h2
    rw [tablerec_get_field, if_neg (by omega), h2]
  · intro rec name c h1 h2
    rw [tablerec_get_field, if_neg (by omega), h2]
  · intro rec name c h1 h2
    rw [tablerec_get_field, if_neg (by omega), h2]
  · intro rec name t sh es htm h1 h2
    simp only [List.mem_cons, List.not_mem_nil, or_false] at htm
    rcases htm with rfl | rfl | rfl <;>
      rw [tablerec_get_field, if_neg (by omega), h2]
  · intro t htm rec name n dims d
    simp only [List.mem_cons, List.not_mem_nil, or_false] at htm
    rcases htm with rfl | rfl | rfl | rfl | rfl | rfl <;> rfl
  · intro row name
    rfl
  · intro row name t n dims d
    rfl
  · intro col row c h1 h2 h3
    simp [table_put_cell, putScalarColumn, readScalarAs, scalarTag, h1, h2, h3]
  · intro col row c h1 h2 h3
    simp [table_put_cell, putScalarColumn, readScalarAs, scalarTag, h1, h2, h3]
  · intro col row dims es h1 h2 h3 h4
    simp [table_put_cell, putArrayColumn, readArrayD, shapeOk, h1, h2, h3, h4]
  · intro col row dims es h1 h2 h3 h4
    simp [table_put_cell, putArrayColumn, readArrayD, shapeOk, h1, h2, h3, h4]
  · intro col row n dims d
    rfl
  · intro col row n dims d
    rfl
  · intro col row h1 h2
    simp [table_get_cell, trueDataType, h1, h2]

/-- C10 witness: a record with one TpChar field, probed through the
record-granularity generic get. -/
theorem record_granularity_unhandled_tags_witness :
    (0 : Int) ≤ fieldNumber [("c", CellValue.scalar (.sChar (-1)))] "c"
    ∧ recField [("c", CellValue.scalar (.sChar (-1)))]
        (fieldNumber [("c", CellValue.scalar (.sChar (-1)))] "c").toNat
        = .scalar (.sChar (-1))
    ∧ tablerec_get_field [("c", CellValue.scalar (.sChar (-1)))] "c"
        = .error (.msg "unhandled field data type") :=
  ⟨by decide, by decide,
    record_granularity_unhandled_tags.1
      [("c", CellValue.scalar (.sChar (-1)))] "c" (-1) (by decide) (by decide)⟩
